import Mathlib

/-!
Verification of the Inline Slot (utils::FastPimpl) and the Work-Unit /
Contract composition framework of src/main.cpp, as a shallow embedding.
Sizes and alignments are natural numbers; compile-time validation is the
boolean conjunction of the static assertions in the source; runtime
behaviour of the special member functions is modelled as traces of the
statements their bodies execute.
-/

namespace TestIED

/-- Constant utils::kStrictMatch (src/main.cpp line 16). -/
def kStrictMatch : Bool := true

/-- Default value of the Strict template parameter of utils::FastPimpl
(src/main.cpp lines 45-46: bool Strict = false). -/
def defaultStrict : Bool := false

/-- The four static assertions of utils::FastPimpl::Validate
(src/main.cpp lines 95-107), instantiated at ActualSize = sizeof(T) and
ActualAlignment = alignof(T) as the destructor does.  Returns true exactly
when every static assertion passes, i.e. when the instantiation compiles. -/
def Validate (Size Alignment ActualSize ActualAlignment : Nat)
    (Strict : Bool) : Bool :=
  decide (Size ≥ ActualSize) &&
  (!Strict || decide (Size = ActualSize)) &&
  decide (Alignment % ActualAlignment = 0) &&
  (!Strict || decide (Alignment = ActualAlignment))

/-- Statements appearing in the bodies of the special member functions of
utils::FastPimpl that manage the hidden object. -/
inductive Stmt
  | placementNew
  | validateCall
  | destroyT
deriving DecidableEq

/-- Body of the argument-forwarding constructor of utils::FastPimpl
(src/main.cpp lines 72-77): a single placement new of T; no call to
Validate appears there. -/
def ctorBody : List Stmt := [Stmt.placementNew]

/-- Body of the destructor of utils::FastPimpl (src/main.cpp lines 87-90):
the call Validate<sizeof(T), alignof(T)>() followed by AsHeld()->~T(). -/
def dtorBody : List Stmt := [Stmt.validateCall, Stmt.destroyT]

/-- Whether a member-function body contains a call to Validate, i.e. is a
check point of the size/alignment contract. -/
def checksContract (body : List Stmt) : Bool :=
  decide (Stmt.validateCall ∈ body)

/-- Runtime events observable while a slot runs: invocations of the hidden
type T its constructor and its destructor. -/
inductive Event
  | ctorT
  | dtorT
deriving DecidableEq

/-- Runtime effect of each statement.  The placement new runs the
constructor of T; Validate consists solely of static assertions and has no
runtime effect; AsHeld()->~T() runs the destructor of T. -/
def runtimeEffect : Stmt → List Event
  | Stmt.placementNew => [Event.ctorT]
  | Stmt.validateCall => []
  | Stmt.destroyT => [Event.dtorT]

/-- Runtime trace of a member-function body. -/
def traceOf (body : List Stmt) : List Event :=
  body.flatMap runtimeEffect

/-- Runtime trace of constructing a slot and then destructing it. -/
def lifecycleTrace : List Event :=
  traceOf ctorBody ++ traceOf dtorBody

theorem validate_eq_true_iff (S A s a : Nat) (St : Bool) :
    Validate S A s a St = true ↔
      (s ≤ S ∧ (St = true → S = s) ∧ A % a = 0 ∧ (St = true → A = a)) := by
  cases St <;> simp [Validate] <;> tauto

/-- C1: a slot instantiation violating the size/alignment contract (capacity
below sizeof(T), alignment not a multiple of alignof(T), or inexact match in
strict mode) is exactly an instantiation on which the static assertions of
Validate fail, i.e. a build-time failure; and Validate has no runtime
effect, so no runtime error path exists. -/
theorem fastPimpl_contract_violation_is_build_time :
    ∀ (Size Alignment sizeT alignT : Nat) (Strict : Bool),
      (Validate Size Alignment sizeT alignT Strict = false ↔
        (Size < sizeT ∨ Alignment % alignT ≠ 0 ∨
          (Strict = true ∧ (Size ≠ sizeT ∨ Alignment ≠ alignT)))) ∧
      runtimeEffect Stmt.validateCall = [] := by
  intro S A s a St
  refine ⟨?_, rfl⟩
  rw [← Bool.not_eq_true, validate_eq_true_iff]
  cases St <;> simp <;> omega

/-- C2 counterexample: the claim that the contract is checked both at
construction and at destruction is false — the constructor body of the slot
contains no Validate call. -/
theorem fastPimpl_ctor_checks_claim_false :
    ¬ (checksContract ctorBody = true ∧ checksContract dtorBody = true) := by
  decide

/-- C2 amended: the size/alignment contract is checked at exactly one
point, the destructor of the slot; the constructor performs no check of its
own. -/
theorem fastPimpl_validation_only_at_destruction :
    checksContract ctorBody = false ∧ checksContract dtorBody = true := by
  decide

/-- C3: for every parameter combination satisfying the size/alignment
contract, constructing then destructing a slot runs the constructor of the
hidden type exactly once and its destructor exactly once, the constructor
call coming first. -/
theorem fastPimpl_lifecycle_ctor_dtor_once_in_order :
    ∀ (Size Alignment sizeT alignT : Nat) (Strict : Bool),
      Validate Size Alignment sizeT alignT Strict = true →
      lifecycleTrace.count Event.ctorT = 1 ∧
      lifecycleTrace.count Event.dtorT = 1 ∧
      lifecycleTrace.indexOf Event.ctorT < lifecycleTrace.indexOf Event.dtorT := by
  intro _ _ _ _ _ _
  decide

/-- C3 witness: the contract holds at Size = Alignment = sizeof(T) =
alignof(T) = 8 in strict mode, and the lifecycle property follows. -/
theorem fastPimpl_lifecycle_witness :
    Validate 8 8 8 8 true = true ∧
    (lifecycleTrace.count Event.ctorT = 1 ∧
     lifecycleTrace.count Event.dtorT = 1 ∧
     lifecycleTrace.indexOf Event.ctorT < lifecycleTrace.indexOf Event.dtorT) :=
  ⟨by decide, fastPimpl_lifecycle_ctor_dtor_once_in_order 8 8 8 8 true (by decide)⟩

/-- C9: the strictness flag defaults to off; with the default flag a
capacity strictly above sizeof(T) together with any alignment that is a
multiple of alignof(T) passes validation, while an explicit Strict = true
passes only on exact equality of both. -/
theorem fastPimpl_strict_defaults_off :
    ∀ (Size Alignment sizeT alignT : Nat),
      defaultStrict = false ∧
      (sizeT < Size → Alignment % alignT = 0 →
        Validate Size Alignment sizeT alignT defaultStrict = true) ∧
      (Validate Size Alignment sizeT alignT true = true →
        Size = sizeT ∧ Alignment = alignT) := by
  intro S A s a
  refine ⟨rfl, fun h1 h2 => ?_, fun h => ?_⟩
  · rw [defaultStrict, validate_eq_true_iff]
    exact ⟨Nat.le_of_lt h1, by simp, h2, by simp⟩
  · rw [validate_eq_true_iff] at h
    exact ⟨h.2.1 rfl, h.2.2.2 rfl⟩

/-- C9 witness: a capacity of 16 against a hidden size of 8, alignment 8
against alignment 8, passes validation under the default flag. -/
theorem fastPimpl_strict_defaults_off_witness :
    (8 : Nat) < 16 ∧ (8 : Nat) % 8 = 0 ∧
    Validate 16 8 8 8 defaultStrict = true :=
  ⟨by decide, by decide,
    (fastPimpl_strict_defaults_off 16 8 8 8).2.1 (by decide) (by decide)⟩

/-- Behaviour of the special member functions of the hidden type T.  Each
operation may fail with an exception of type ε and may perform a list of
side effects of type σ.  A move operation yields the value of the newly
built or assigned object together with the residual value left in the
moved-from source. -/
structure TOps (α ε σ : Type) where
  copyCtor : α → Except ε (α × List σ)
  moveCtor : α → Except ε ((α × α) × List σ)
  copyAssign : α → α → Except ε (α × List σ)
  moveAssign : α → α → Except ε ((α × α) × List σ)

/-- State of a slot between construction and destruction: the byte buffer
storage_ (src/main.cpp line 109) holds exactly one live value of the hidden
type; no empty state is representable. -/
structure FastPimplState (α : Type) where
  held : α

/-- The argument-forwarding constructor of the slot (src/main.cpp lines
72-77): the placement new builds the hidden object from the result of
evaluating T(args...), placing it into fresh storage. -/
def fpForwardCtor {α ε σ : Type} (buildT : Except ε (α × List σ)) :
    Except ε (FastPimplState α × List σ) :=
  buildT.map (fun p => (⟨p.1⟩, p.2))

/-- The copy constructor of the slot (src/main.cpp lines 54-56): delegates
to the forwarding constructor on *v, hence runs the copy constructor of T
on the held value. -/
def fpCopyCtor {α ε σ : Type} (ops : TOps α ε σ) (v : FastPimplState α) :
    Except ε (FastPimplState α × List σ) :=
  fpForwardCtor (ops.copyCtor v.held)

/-- The move constructor of the slot (src/main.cpp lines 50-51): delegates
to the forwarding constructor on std::move(*v), hence runs the move
constructor of T once on the held value.  The result carries the new slot
and the source slot, which still holds the moved-from value. -/
def fpMoveCtor {α ε σ : Type} (ops : TOps α ε σ) (v : FastPimplState α) :
    Except ε ((FastPimplState α × FastPimplState α) × List σ) :=
  (ops.moveCtor v.held).map (fun p => ((⟨p.1.1⟩, ⟨p.1.2⟩), p.2))

/-- Copy assignment of the slot (src/main.cpp lines 59-63):
*AsHeld() = *rhs, the copy assignment of T on the held values. -/
def fpCopyAssign {α ε σ : Type} (ops : TOps α ε σ)
    (tgt rhs : FastPimplState α) : Except ε (FastPimplState α × List σ) :=
  (ops.copyAssign tgt.held rhs.held).map (fun p => (⟨p.1⟩, p.2))

/-- Move assignment of the slot (src/main.cpp lines 65-70):
*AsHeld() = std::move(*rhs), the move assignment of T on the held values;
the result carries the new target and the rhs slot with its moved-from
value. -/
def fpMoveAssign {α ε σ : Type} (ops : TOps α ε σ)
    (tgt rhs : FastPimplState α) :
    Except ε ((FastPimplState α × FastPimplState α) × List σ) :=
  (ops.moveAssign tgt.held rhs.held).map (fun p => ((⟨p.1.1⟩, ⟨p.1.2⟩), p.2))

/-- From the words of the specification: copying a slot applies the copy
constructor of T to the held value and nothing else — same result, same
failure, same side effects. -/
def specCopyCtor {α ε σ : Type} (ops : TOps α ε σ) (v : FastPimplState α) :
    Except ε (FastPimplState α × List σ) :=
  match ops.copyCtor v.held with
  | Except.error e => Except.error e
  | Except.ok (nv, es) => Except.ok (⟨nv⟩, es)

/-- From the words of the specification: moving from a slot applies the
move constructor of T to the held value and nothing else. -/
def specMoveCtor {α ε σ : Type} (ops : TOps α ε σ) (v : FastPimplState α) :
    Except ε ((FastPimplState α × FastPimplState α) × List σ) :=
  match ops.moveCtor v.held with
  | Except.error e => Except.error e
  | Except.ok ((nv, rv), es) => Except.ok ((⟨nv⟩, ⟨rv⟩), es)

/-- From the words of the specification: copy-assigning a slot applies the
copy assignment of T to the held values and nothing else. -/
def specCopyAssign {α ε σ : Type} (ops : TOps α ε σ)
    (tgt rhs : FastPimplState α) : Except ε (FastPimplState α × List σ) :=
  match ops.copyAssign tgt.held rhs.held with
  | Except.error e => Except.error e
  | Except.ok (nt, es) => Except.ok (⟨nt⟩, es)

/-- From the words of the specification: move-assigning a slot applies the
move assignment of T to the held values and nothing else. -/
def specMoveAssign {α ε σ : Type} (ops : TOps α ε σ)
    (tgt rhs : FastPimplState α) :
    Except ε ((FastPimplState α × FastPimplState α) × List σ) :=
  match ops.moveAssign tgt.held rhs.held with
  | Except.error e => Except.error e
  | Except.ok ((nt, rv), es) => Except.ok ((⟨nt⟩, ⟨rv⟩), es)

/-- Observable content of a slot through operator* (src/main.cpp lines
83-85): always the live held value, never empty. -/
def fpContents {α : Type} (s : FastPimplState α) : Option α :=
  some s.held

/-- The invocations of the destructor of T performed by the destructor of
the slot (src/main.cpp lines 87-90): Validate is compile-time only, then
exactly one AsHeld()->~T() on the held object. -/
def fpDestroyCalls {α : Type} (s : FastPimplState α) : List α :=
  [s.held]

/-- C8: copy construction, move construction, copy assignment and move
assignment of the slot coincide with applying the corresponding operation
of the hidden type to the held values — same values, same failures, same
side effects. -/
theorem fastPimpl_copy_move_delegate_to_hidden_type :
    ∀ {α ε σ : Type} (ops : TOps α ε σ) (v tgt rhs : FastPimplState α),
      fpCopyCtor ops v = specCopyCtor ops v ∧
      fpMoveCtor ops v = specMoveCtor ops v ∧
      fpCopyAssign ops tgt rhs = specCopyAssign ops tgt rhs ∧
      fpMoveAssign ops tgt rhs = specMoveAssign ops tgt rhs := by
  intro α ε σ ops v tgt rhs
  refine ⟨?_, ?_, ?_, ?_⟩
  · cases h : ops.copyCtor v.held <;>
      simp [fpCopyCtor, fpForwardCtor, specCopyCtor, Except.map, h]
  · cases h : ops.moveCtor v.held <;>
      simp [fpMoveCtor, specMoveCtor, Except.map, h]
  · cases h : ops.copyAssign tgt.held rhs.held <;>
      simp [fpCopyAssign, specCopyAssign, Except.map, h]
  · cases h : ops.moveAssign tgt.held rhs.held <;>
      simp [fpMoveAssign, specMoveAssign, Except.map, h]

/-- C10: a successful move from a slot builds the destination from the
moved value, leaves the source slot holding a live moved-from instance
(its contents are never empty), and the destructor of the source slot
still destroys that instance exactly once. -/
theorem fastPimpl_move_source_remains_live :
    ∀ {α ε σ : Type} (ops : TOps α ε σ) (v : FastPimplState α)
      (nv mv : α) (es : List σ),
      ops.moveCtor v.held = Except.ok ((nv, mv), es) →
      fpMoveCtor ops v = Except.ok ((⟨nv⟩, ⟨mv⟩), es) ∧
      fpContents (FastPimplState.mk mv) = some mv ∧
      fpDestroyCalls (FastPimplState.mk mv) = [mv] := by
  intro α ε σ ops v nv mv es h
  exact ⟨by simp [fpMoveCtor, Except.map, h], rfl, rfl⟩

/-- Concrete hidden-type behaviour for witnesses: a Nat-valued type whose
move operations leave the residue 0 in the source, with no failures and no
side effects. -/
def natOps : TOps Nat Unit Unit where
  copyCtor := fun a => Except.ok (a, [])
  moveCtor := fun a => Except.ok ((a, 0), [])
  copyAssign := fun _ s => Except.ok (s, [])
  moveAssign := fun _ s => Except.ok ((s, 0), [])

/-- C10 witness: moving from a slot holding 5 with the concrete behaviour
natOps leaves the source holding the residue 0, still live and destroyed
exactly once. -/
theorem fastPimpl_move_source_remains_live_witness :
    natOps.moveCtor 5 = Except.ok ((5, 0), ([] : List Unit)) ∧
    (fpMoveCtor natOps ⟨5⟩ = Except.ok ((⟨5⟩, ⟨0⟩), ([] : List Unit)) ∧
     fpContents (FastPimplState.mk 0) = some 0 ∧
     fpDestroyCalls (FastPimplState.mk 0) = [0]) :=
  ⟨rfl, fastPimpl_move_source_remains_live natOps ⟨5⟩ 5 0 [] rfl⟩

/-- Enumeration ic::eng::ParticipantsType (src/main.cpp lines 506-516). -/
inductive ParticipantsType
  | kEmpty
  | kMainContractManager
  | kObserver
  | kMonitored
  | kBusinessLogic
  | kLeft
  | kRight
  | kCenter
  | kParent
deriving DecidableEq

/-- Underlying integer values of ParticipantsType as declared in the
source (kEmpty = -1, kMainContractManager = 0, ..., kParent = 7). -/
def ParticipantsType.toInt : ParticipantsType → Int
  | ParticipantsType.kEmpty => -1
  | ParticipantsType.kMainContractManager => 0
  | ParticipantsType.kObserver => 1
  | ParticipantsType.kMonitored => 2
  | ParticipantsType.kBusinessLogic => 3
  | ParticipantsType.kLeft => 4
  | ParticipantsType.kRight => 5
  | ParticipantsType.kCenter => 6
  | ParticipantsType.kParent => 7

/-- The member m_participants of ic::eng::WorkUnit (src/main.cpp lines
528-535): a map from role to the ordered sequence of owned
(role, contract) pairs, contracts identified by the unique pointer they
are owned through, here a natural-number identity.  A key absent from the
unordered_map is the empty sequence. -/
def ParticipantsMap : Type :=
  ParticipantsType → List (ParticipantsType × Nat)

/-- A freshly constructed work-unit node (WorkUnit() = default,
src/main.cpp line 538): the participant map is empty. -/
def emptyParticipants : ParticipantsMap := fun _ => []

/-- Modelled from the spec: Register(role, contract) is described in
section 4.2 of the specification but absent from src/main.cpp, which only
declares the map m_participants it would mutate.  Per the specification it
transfers exclusive ownership of the contract into the map under the role,
appending to the end of the sequence of that role. -/
def Register (m : ParticipantsMap) (role : ParticipantsType) (c : Nat) :
    ParticipantsMap :=
  fun r => if r = role then m role ++ [(role, c)] else m r

/-- Modelled from the spec: Iterate(role) is described in section 4.2 of
the specification but absent from src/main.cpp; it yields the contracts
registered under the role in registration order. -/
def Iterate (m : ParticipantsMap) (role : ParticipantsType) : List Nat :=
  (m role).map Prod.snd

/-- A sequence of Register calls under one role, in order. -/
def registerAll (m : ParticipantsMap) (role : ParticipantsType)
    (cs : List Nat) : ParticipantsMap :=
  cs.foldl (fun acc c => Register acc role c) m

theorem iterate_register_same (m : ParticipantsMap)
    (role : ParticipantsType) (c : Nat) :
    Iterate (Register m role c) role = Iterate m role ++ [c] := by
  simp [Iterate, Register]

theorem iterate_registerAll (role : ParticipantsType) (cs : List Nat) :
    ∀ m : ParticipantsMap,
      Iterate (registerAll m role cs) role = Iterate m role ++ cs := by
  induction cs with
  | nil => intro m; simp [registerAll]
  | cons c cs ih =>
      intro m
      have h1 : registerAll m role (c :: cs) =
          registerAll (Register m role c) role cs := rfl
      rw [h1, ih, iterate_register_same]
      simp

/-- C6: every sequence of N registrations under one role on a fresh node
appends each contract to the end of the sequence of that role, and
Iterate(role) then yields exactly those N contracts in registration
order. -/
theorem register_iterate_preserves_order :
    ∀ (role : ParticipantsType) (cs : List Nat),
      Iterate (registerAll emptyParticipants role cs) role = cs ∧
      ∀ (m : ParticipantsMap) (c : Nat),
        Register m role c role = m role ++ [(role, c)] := by
  intro role cs
  constructor
  · rw [iterate_registerAll]
    simp [Iterate, emptyParticipants]
  · intro m c
    simp [Register]

/-- An ExecuteImpl invocation resolved by the static dispatch: the
identity of the concrete type whose logic runs. -/
inductive ExecCall
  | impl (typeId : Nat)
deriving DecidableEq

/-- Compile-time view of a concrete type derived from
ic::eng::WorkUnit<DerivedType, ...> (src/main.cpp lines 523-545): its
identity and whether it declares an ExecuteImpl of its own.  Neither
IWorkUnit (lines 481-493) nor WorkUnit itself declares one, so name lookup
in Execute can succeed only through the derived type. -/
structure UnitType where
  id : Nat
  declaresExecuteImpl : Bool
deriving DecidableEq

/-- WorkUnit::Execute (src/main.cpp lines 542-544):
static_cast<DerivedType*>(this)->ExecuteImpl().  The cast target is fixed
at compile time to the derived type; the body is that single call, and the
registered participants of the node take no part in it.  If the derived
type declares no ExecuteImpl the call does not compile (none); otherwise
the body performs exactly the calls in the returned list. -/
def Execute (D : UnitType) (node : ParticipantsMap) :
    Option (List ExecCall) :=
  if D.declaresExecuteImpl then some [ExecCall.impl D.id] else none

/-- C4: Execute on a concrete unit dispatches at compile time to the
ExecuteImpl of that unit only — never to the logic of any other unit, in
particular not to an owned unit, whatever the registered participants are;
a concrete type declaring no ExecuteImpl fails to build instead of
reaching any runtime path. -/
theorem workUnit_execute_static_dispatch_own_impl :
    ∀ (D : UnitType) (ps qs : ParticipantsMap),
      (D.declaresExecuteImpl = true →
        Execute D ps = some [ExecCall.impl D.id] ∧
        ∀ b : Nat, ExecCall.impl b ∈ (Execute D ps).getD [] → b = D.id) ∧
      (D.declaresExecuteImpl = false → Execute D ps = none) ∧
      Execute D ps = Execute D qs := by
  intro D ps qs
  refine ⟨fun h => ⟨by simp [Execute, h], fun b hb => ?_⟩,
          fun h => by simp [Execute, h], rfl⟩
  simpa [Execute, h] using hb

/-- C4 witness: a concrete unit with identity 1 that declares its own
ExecuteImpl dispatches to exactly that logic on a fresh node. -/
theorem workUnit_execute_static_dispatch_own_impl_witness :
    UnitType.declaresExecuteImpl ⟨1, true⟩ = true ∧
    Execute ⟨1, true⟩ emptyParticipants = some [ExecCall.impl 1] :=
  ⟨rfl,
    ((workUnit_execute_static_dispatch_own_impl ⟨1, true⟩ emptyParticipants
        emptyParticipants).1 rfl).1⟩

/-- Default construction of ic::eng::IWorkUnit (src/main.cpp lines
481-493): before the constructor body runs, the member initializer
m_self_unique_ptr = std::make_unique<IWorkUnit>() must default-construct
another IWorkUnit, with no base case.  Modelled with explicit recursion
depth: the construction completes (some ()) only if it bottoms out within
the given depth. -/
def constructIWorkUnit : Nat → Option Unit
  | 0 => none
  | n + 1 => constructIWorkUnit n

/-- C5: default-constructing IWorkUnit never completes at any finite
recursion depth — the self-referential member initializer recurses without
termination, contradicting the required terminating construction. -/
theorem iworkUnit_default_construction_diverges :
    ∀ depth : Nat, constructIWorkUnit depth = none := by
  intro depth
  induction depth with
  | zero => rfl
  | succ n ih => simpa [constructIWorkUnit] using ih

/-- Macro constant MY_EXIT_SUCCESS (src/main.cpp line 564). -/
def MY_EXIT_SUCCESS : Int := 0

/-- Constructor of IDApp::IDApplication (src/main.cpp lines 567-569):
takes the argument count and vector, inspects neither, stores nothing. -/
def IDApplicationCtor (argc : Nat) (argv : List String) : Unit := ()

/-- IDApp::IDApplication::exec (src/main.cpp lines 581-585): returns
MY_EXIT_SUCCESS unconditionally. -/
def IDApplicationExec : Int := MY_EXIT_SUCCESS

/-- main (src/main.cpp lines 601-605): constructs the application from the
raw arguments and returns the result of exec. -/
def mainShell (argc : Nat) (argv : List String) : Int :=
  let _app := IDApplicationCtor argc argv
  IDApplicationExec

/-- C7: for every argument count and argument vector the process shell
performs no argument validation and exits with status 0. -/
theorem process_shell_always_exits_zero :
    ∀ (argc : Nat) (argv : List String), mainShell argc argv = 0 := by
  intro argc argv
  rfl

end TestIED
